import Mathlib

/-!
Shallow embedding of the leafysd control daemon's packet codec
(`lib/raw_packets.c`) and control session (`src/control.c`), with theorems
checking the natural-language specification against the code.

Machine integers are modelled as `Nat` with explicit `% 2^w` where overflow
matters.  `htons`/`ntohs`/`htonl`/`ntohl` are modelled as byte swaps (the
behaviour on the little-endian hosts the daemon targets; on a big-endian
host they are the identity and the byte-order properties below are
trivial).  In-memory structs become Lean structures; the payload union of
`struct raw_packet` is modelled with one field per view, which is faithful
here because every embedded operation touches only the view selected by
the packet type.  Fallible paths (assertion failures, error returns) are
modelled with `Option` and explicit errno values.
-/

namespace Leafysd

/-- Byte swap of a 16-bit value (the effect of `htons`/`ntohs` on a
little-endian host); the argument is truncated to 16 bits first, as a
`uint16_t` store would. -/
def swap16 (x : Nat) : Nat :=
  (x % 256) * 256 + (x % 65536) / 256

/-- Byte swap of a 32-bit value (the effect of `htonl`/`ntohl` on a
little-endian host). -/
def swap32 (x : Nat) : Nat :=
  (x % 256) * 16777216 + (x / 256 % 256) * 65536 +
    (x / 65536 % 256) * 256 + (x % 4294967296) / 16777216

/-- `htons` from `arpa/inet.h`, as used by `lib/raw_packets.c`. -/
def htons (x : Nat) : Nat := swap16 x

/-- `ntohs` from `arpa/inet.h`. -/
def ntohs (x : Nat) : Nat := swap16 x

/-- `htonl` from `arpa/inet.h`. -/
def htonl (x : Nat) : Nat := swap32 x

/-- `ntohl` from `arpa/inet.h`. -/
def ntohl (x : Nat) : Nat := swap32 x

/-- `PACKET_HEADER_MAGIC` (`lib/raw_packets.c` line 13). -/
def PACKET_HEADER_MAGIC : Nat := 0x5A

/-- `PACKET_HEADER_PROTO_VERS` (`lib/raw_packets.c` line 14). -/
def PACKET_HEADER_PROTO_VERS : Nat := 0x00

/-- Modelled from the spec: the packet type codes are defined in
`raw_packets.h`, which is not under `src/`; the spec fixes only the set of four: BoardSample, Request,
Response, Error.  The codec relies on every code
being nonzero (`0` means "any type" on receive) and the codes being
distinct, which the values chosen here satisfy. -/
def RAW_PKT_TYPE_BSAMP : Nat := 1

/-- Modelled from the spec: Request type code (see `RAW_PKT_TYPE_BSAMP`). -/
def RAW_PKT_TYPE_REQ : Nat := 2

/-- Modelled from the spec: Response type code (see `RAW_PKT_TYPE_BSAMP`). -/
def RAW_PKT_TYPE_RES : Nat := 3

/-- Modelled from the spec: Error type code (see `RAW_PKT_TYPE_BSAMP`). -/
def RAW_PKT_TYPE_ERR : Nat := 4

/-- `struct raw_msg_req` (also the layout of `struct raw_msg_res`, which
the code casts to it): `(r_id: u16, r_type: u8, r_addr: u8, r_val: u32)`. -/
structure raw_msg_req where
  r_id : Nat
  r_type : Nat
  r_addr : Nat
  r_val : Nat
deriving DecidableEq, Repr

/-- `struct raw_msg_bsamp`: `bs_idx (u32)`, `bs_nchips (u16)`,
`bs_nlines (u16)`, and the flexible sample array `bs_samples`, modelled as
a total backing store of 16-bit cells. -/
structure raw_msg_bsamp where
  bs_idx : Nat
  bs_nchips : Nat
  bs_nlines : Nat
  bs_samples : Nat → Nat

/-- Modelled from the spec: `raw_bsamp_nsamps` lives in `raw_packets.h`
(not under `src/`); the spec fixes the sample count as `nchips × nlines`. -/
def raw_bsamp_nsamps (msg : raw_msg_bsamp) : Nat :=
  msg.bs_nchips * msg.bs_nlines

/-- `raw_msg_bsamp_hton` (`lib/raw_packets.c` lines 63-71): the per-sample
loop runs first, while `bs_nchips`/`bs_nlines` are still in host order, and
only then are `bs_idx`, `bs_nchips`, `bs_nlines` converted.  The loop bound
`n` is therefore `raw_bsamp_nsamps` of the unconverted message. -/
def raw_msg_bsamp_hton (msg : raw_msg_bsamp) : raw_msg_bsamp :=
  let n := raw_bsamp_nsamps msg
  { bs_idx := htonl msg.bs_idx
    bs_nchips := htons msg.bs_nchips
    bs_nlines := htons msg.bs_nlines
    bs_samples := fun i => if i < n then htons (msg.bs_samples i)
                           else msg.bs_samples i }

/-- `raw_msg_req_hton` (`lib/raw_packets.c` lines 73-77). -/
def raw_msg_req_hton (msg : raw_msg_req) : raw_msg_req :=
  { msg with r_id := htons msg.r_id, r_val := htonl msg.r_val }

/-- `raw_msg_res_hton` (`lib/raw_packets.c` lines 79-82): casts the
response to a request and converts it. -/
def raw_msg_res_hton (msg : raw_msg_req) : raw_msg_req :=
  raw_msg_req_hton msg

/-- `raw_msg_bsamp_ntoh` (`lib/raw_packets.c` lines 107-115): `bs_idx`,
`bs_nchips`, `bs_nlines` are converted to host order first, and only then
does the per-sample loop run, so its bound is `raw_bsamp_nsamps` of the
dimension-converted message. -/
def raw_msg_bsamp_ntoh (msg : raw_msg_bsamp) : raw_msg_bsamp :=
  let msg1 : raw_msg_bsamp :=
    { msg with bs_idx := ntohl msg.bs_idx
               bs_nchips := ntohs msg.bs_nchips
               bs_nlines := ntohs msg.bs_nlines }
  let n := raw_bsamp_nsamps msg1
  { msg1 with bs_samples := fun i => if i < n then ntohs (msg1.bs_samples i)
                                     else msg1.bs_samples i }

/-- `raw_msg_req_ntoh` (`lib/raw_packets.c` lines 117-121). -/
def raw_msg_req_ntoh (msg : raw_msg_req) : raw_msg_req :=
  { msg with r_id := ntohs msg.r_id, r_val := ntohl msg.r_val }

/-- `raw_msg_res_ntoh` (`lib/raw_packets.c` lines 123-126). -/
def raw_msg_res_ntoh (msg : raw_msg_req) : raw_msg_req :=
  raw_msg_req_ntoh msg

/-- `struct raw_packet`: the four header bytes followed by the payload
union.  The union's Request/Response view (`p.req`, `p.res`, which alias
and share one layout) is `p_req`; its board-sample view (`p.bsamp`) is
`p_bsamp`.  Each embedded operation touches only the view selected by the
packet type, so keeping the views as separate fields is faithful. -/
structure raw_packet where
  _p_magic : Nat
  _p_proto_vers : Nat
  p_type : Nat
  p_flags : Nat
  p_req : raw_msg_req
  p_bsamp : raw_msg_bsamp

/-- `raw_packet_init` (`lib/raw_packets.c` lines 16-23): writes the four
header fields.  The C function touches nothing else (it does not zero the
payload). -/
def raw_packet_init (packet : raw_packet) (type flags : Nat) : raw_packet :=
  { packet with _p_magic := PACKET_HEADER_MAGIC
                _p_proto_vers := PACKET_HEADER_PROTO_VERS
                p_type := type
                p_flags := flags }

/-- The errno-style failure detail of `raw_packet_recv`: `EPROTO` and
`EIO` are set by the function itself; `from_recv` marks a `-1` return that
keeps whatever errno the underlying `recv(2)` call set. -/
inductive recv_errno where
  | EPROTO
  | eio
  | from_recv
deriving DecidableEq, Repr

/-- `raw_packet_recv` (`lib/raw_packets.c` lines 128-171).  The underlying
`recv(2)` syscall is modelled by its inputs to the rest of the function:
`recv_ret` is its return value and `packet` is the buffer state after the
syscall.  A `NULL` `packtype` argument is modelled as `packtype = 0`: the
code substitutes a local zero-initialised byte whose final value is simply
discarded, which is observationally the same.  The result is the C return
value, the errno effect, the final `*packtype`, and the final buffer.
Mirrors the source order: the magic check comes first, then the
`recv` failure check, then the expected-type logic, then the
type-dispatched byte-order conversion. -/
def raw_packet_recv (recv_ret : Int) (packet : raw_packet) (packtype : Nat) :
    Int × Option recv_errno × Nat × raw_packet :=
  if packet._p_magic ≠ PACKET_HEADER_MAGIC then
    (-1, some .EPROTO, packtype, packet)
  else if recv_ret = -1 then
    (-1, some .from_recv, packtype, packet)
  else if packtype ≠ 0 ∧ packtype ≠ packet.p_type then
    (-1, some .eio, packtype, packet)
  else
    let pt := if packtype = 0 then packet.p_type else packtype
    if pt = RAW_PKT_TYPE_BSAMP then
      (recv_ret, none, pt, { packet with p_bsamp := raw_msg_bsamp_ntoh packet.p_bsamp })
    else if pt = RAW_PKT_TYPE_REQ then
      (recv_ret, none, pt, { packet with p_req := raw_msg_req_ntoh packet.p_req })
    else if pt = RAW_PKT_TYPE_RES then
      (recv_ret, none, pt, { packet with p_req := raw_msg_res_ntoh packet.p_req })
    else if pt = RAW_PKT_TYPE_ERR then
      (recv_ret, none, pt, packet)
    else
      (-1, some .EPROTO, pt, packet)

/-- Byte-level view of `struct raw_packet`, used to embed the
`memcpy`-based `raw_packet_copy`: the four header fields followed by the
payload union as a byte-addressed store (`p i` is the byte at offset `i`
from `offsetof(struct raw_packet, p)`). -/
structure raw_packet_bytes where
  _p_magic : Nat
  _p_proto_vers : Nat
  p_type : Nat
  p_flags : Nat
  p : Nat → Nat

/-- Host read of a `uint16_t` stored at byte offset `off` of store `f`
(little-endian host, see the module comment). -/
def le16 (f : Nat → Nat) (off : Nat) : Nat :=
  f off % 256 + 256 * (f (off + 1) % 256)

/-- `sizeof(struct raw_msg_req)`: `u16, u8, u8, u32` at offsets
`0, 2, 3, 4` — 8 bytes, no padding. -/
def sizeof_raw_msg_req : Nat := 8

/-- `sizeof(struct raw_msg_bsamp)` without the flexible sample array:
`bs_idx (u32)` at 0, `bs_nchips (u16)` at 4, `bs_nlines (u16)` at 6 —
8 bytes. -/
def sizeof_raw_msg_bsamp : Nat := 8

/-- Modelled from the spec: `raw_packet_sampsize` lives in
`raw_packets.h` (not under `src/`); the spec fixes the sample payload
length of a board-sample packet as `nchips × nlines × 2` bytes, the
dimensions being read from the packet in host order (`bs_nchips` at
payload offset 4, `bs_nlines` at offset 6). -/
def raw_packet_sampsize (pkt : raw_packet_bytes) : Nat :=
  le16 pkt.p 4 * le16 pkt.p 6 * 2

/-- `raw_packet_copy` (`lib/raw_packets.c` lines 41-61): one `memcpy` of
the header (`offsetof(struct raw_packet, p)` bytes, i.e. the four header
fields), then a type-dispatched `memcpy` of the payload prefix: the whole
board-sample struct plus its sample payload for `BSAMP`, one
`raw_msg_req` for `REQ`/`RES` (fall-through), nothing for `ERR`.
`none` models the `assert(0 && "invalid packet type")` default branch. -/
def raw_packet_copy (dst src : raw_packet_bytes) : Option raw_packet_bytes :=
  let d : raw_packet_bytes :=
    { dst with _p_magic := src._p_magic
               _p_proto_vers := src._p_proto_vers
               p_type := src.p_type
               p_flags := src.p_flags }
  if src.p_type = RAW_PKT_TYPE_BSAMP then
    some { d with p := fun i =>
            (if i < sizeof_raw_msg_bsamp + raw_packet_sampsize src then src.p i
             else dst.p i) }
  else if src.p_type = RAW_PKT_TYPE_REQ ∨ src.p_type = RAW_PKT_TYPE_RES then
    some { d with p := fun i =>
            (if i < sizeof_raw_msg_req then src.p i else dst.p i) }
  else if src.p_type = RAW_PKT_TYPE_ERR then
    some d
  else
    none

/-!
Control session (`src/control.c`).

`struct control_session` is declared in `control.h`, which is not under
`src/`; the fields below are the ones `control.c` manipulates, with types
as the spec gives them (in particular `ctl_cur_rid` is a `u16` — "cur_rid
wraps modulo its width (u16)").  Pointers to libevent objects (`cbev`,
`dbev`) are modelled by whether they are non-null; the mutex is modelled
by a flag recording whether it is held.  Logging and `free` are no-ops in
the model.
-/

/-- Modelled from the spec: one transaction is `(request,
response_buffer, completion_state)` (`control.h` is not under `src/`).
Only the embedded request, reached through `ctxn_req`, is touched by the
operations modelled here; the response buffer and completion state are
never accessed, so they are omitted. -/
structure control_txn where
  req : raw_msg_req
deriving DecidableEq, Repr

/-- The session fields of `struct control_session` that the embedded
operations read or write (see the section comment). -/
structure control_session where
  cbev : Bool
  dbev : Bool
  ctl_txns : Option (List control_txn)
  ctl_n_txns : Nat
  ctl_cur_txn : Int
  ctl_cur_rid : Nat
  wake_why : Nat
  mtx_locked : Bool
deriving DecidableEq, Repr

/-- `control_must_lock`: acquires the session mutex (failure to acquire
is fatal and aborts the process, so the model only records acquisition). -/
def control_must_lock (cs : control_session) : control_session :=
  { cs with mtx_locked := true }

/-- `control_must_unlock`: releases the session mutex. -/
def control_must_unlock (cs : control_session) : control_session :=
  { cs with mtx_locked := false }

/-- The stamping loop of `control_set_transactions` (`src/control.c`
lines 609-611): `for i < n_txns: ctxn_req(&txns[i])->r_id = ctl_cur_rid++`.
`r_id` and `ctl_cur_rid` are `u16`, so the store truncates and the
increment wraps modulo 2^16.  Returns the stamped list and the final
`ctl_cur_rid`. -/
def stamp_loop (rid : Nat) : List control_txn → List control_txn × Nat
  | [] => ([], rid)
  | t :: ts =>
    let t1 : control_txn := { t with req := { t.req with r_id := rid % 65536 } }
    let p := stamp_loop ((rid + 1) % 65536) ts
    (t1 :: p.1, p.2)

/-- The part of `control_set_transactions` (`src/control.c` lines
593-612) that runs between the conditional lock acquisition and release:
the assertion on lines 595-598 (`none` models it firing), the free and
install of the list and count, and either the clear (`cur_txn = -1`) or
the install (`cur_txn = 0` plus the stamping loop).  The C loop runs for
`i < n_txns` over the `txns` array; the model iterates over the list,
which coincides whenever the caller passes a consistent `n_txns`
(anything else is out-of-bounds in C). -/
def control_set_transactions_body (cs : control_session)
    (txns : Option (List control_txn)) (n_txns : Nat) :
    Option control_session :=
  if (cs.ctl_txns = none ∧ cs.ctl_cur_txn = -1 ∧ cs.ctl_n_txns = 0) ∨
     (txns = none ∧ n_txns = 0) then
    let cs1 := { cs with ctl_txns := txns, ctl_n_txns := n_txns }
    if n_txns = 0 then
      some { cs1 with ctl_cur_txn := -1 }
    else
      let p := stamp_loop cs1.ctl_cur_rid (txns.getD [])
      some { cs1 with ctl_cur_txn := 0
                      ctl_txns := some p.1
                      ctl_cur_rid := p.2 }
  else
    none

/-- `control_set_transactions` (`src/control.c` lines 586-616): when the
caller does not already hold the session mutex (`have_lock` unset), the
body runs bracketed by `control_must_lock`/`control_must_unlock`;
otherwise it runs directly. -/
def control_set_transactions (cs : control_session)
    (txns : Option (List control_txn)) (n_txns : Nat) (have_lock : Bool) :
    Option control_session :=
  if have_lock then
    control_set_transactions_body cs txns n_txns
  else
    (control_set_transactions_body (control_must_lock cs) txns
      n_txns).map control_must_unlock

/-- Modelled from the spec: `control_clear_transactions` is declared in
`control.h` (not under `src/`); the spec defines `clear` as the
convenience for `set(∅, 0)`, optionally releasing the backing storage
(a no-op at this level).  Both call sites in `src/control.c` hold the
mutex, so the clear runs with `have_lock` set; with `∅, 0` the assertion
in `control_set_transactions` cannot fire, so the `getD` fallback is
unreachable. -/
def control_clear_transactions (cs : control_session) : control_session :=
  (control_set_transactions cs none 0 true).getD cs

/-- The mutex-held portion of `control_client_close` (`src/control.c`
lines 85-94, between `control_must_lock` and `control_must_unlock`):
free the client bufferevent and clear its slot, then, if transactions are
pending, clear them. -/
def control_client_close_locked (cs : control_session) : control_session :=
  let cs1 := { cs with cbev := false }
  if cs1.ctl_txns ≠ none then control_clear_transactions cs1 else cs1

/-- `control_client_close` (`src/control.c` lines 83-98).  `none` models
the `assert(cs->cbev)` firing.  The trailing `cs_close` side-handler hook
is modelled from the spec as a no-op on session state: per the
side-handler contract it only releases per-connection handler state. -/
def control_client_close (cs : control_session) : Option control_session :=
  let cs1 := control_must_lock cs
  if cs1.cbev then
    some (control_must_unlock (control_client_close_locked cs1))
  else
    none

/-- `BEV_EVENT_EOF` (libevent public API). -/
def BEV_EVENT_EOF : Nat := 0x10

/-- `BEV_EVENT_ERROR` (libevent public API). -/
def BEV_EVENT_ERROR : Nat := 0x20

/-- `control_bevt_handler` (`src/control.c` lines 272-282): on EOF or
ERROR run the side's close handler; any other event is logged and
ignored. -/
def control_bevt_handler (cs : control_session) (events : Nat)
    (on_close : control_session → Option control_session) :
    Option control_session :=
  if events &&& BEV_EVENT_EOF ≠ 0 ∨ events &&& BEV_EVENT_ERROR ≠ 0 then
    on_close cs
  else
    some cs

/-- `control_client_event` (`src/control.c` lines 284-290); the
`assert(bev == cs->cbev)` argument-aliasing check has no model-level
content. -/
def control_client_event (events : Nat) (cs : control_session) :
    Option control_session :=
  control_bevt_handler cs events control_client_close

/-!
Worker thread (`src/control.c` lines 243-266), modelled as the trace of
actions one pass of the outer loop performs.  `CONTROL_WHY_*` are
declared in `control.h` (not under `src/`); modelled from the spec, which
makes them a bitset over distinct reasons with `NONE` meaning no bit set.
-/

/-- Modelled from the spec: the empty wake bitset. -/
def CONTROL_WHY_NONE : Nat := 0x00

/-- Modelled from the spec: wake bit EXIT (tear down). -/
def CONTROL_WHY_EXIT : Nat := 0x01

/-- Modelled from the spec: wake bit CLIENT_CMD. -/
def CONTROL_WHY_CLIENT_CMD : Nat := 0x02

/-- Modelled from the spec: wake bit CLIENT_RES. -/
def CONTROL_WHY_CLIENT_RES : Nat := 0x04

/-- Modelled from the spec: wake bit DNODE_TXN. -/
def CONTROL_WHY_DNODE_TXN : Nat := 0x08

/-- Observable actions of one pass of `control_worker_main`'s loop. -/
inductive worker_act where
  | lock_mtx
  | unlock_mtx
  | client_hook
  | dnode_hook
  | exit_thread
deriving DecidableEq, Repr

/-- The guard of the inner wait loop (`src/control.c` line 248):
`while (cs->wake_why == CONTROL_WHY_NONE) control_must_cond_wait(cs)`. -/
def control_worker_guard (w : Nat) : Bool :=
  w == CONTROL_WHY_NONE

/-- One pass of the outer loop of `control_worker_main` (`src/control.c`
lines 246-263), given the `wake_why` value `w` observed once the inner
wait loop has exited (so `w ≠ CONTROL_WHY_NONE`): lock; if the EXIT bit
is set, unlock and terminate; otherwise run the client-side `thread` hook
when CLIENT_CMD or CLIENT_RES is set, then the data-node-side `thread`
hook when DNODE_TXN is set, then unlock and loop. -/
def control_worker_iter (w : Nat) : List worker_act :=
  worker_act.lock_mtx ::
    (if w &&& CONTROL_WHY_EXIT ≠ 0 then
      [worker_act.unlock_mtx, worker_act.exit_thread]
    else
      (if w &&& (CONTROL_WHY_CLIENT_CMD ||| CONTROL_WHY_CLIENT_RES) ≠ 0 then
        [worker_act.client_hook]
      else []) ++
      (if w &&& CONTROL_WHY_DNODE_TXN ≠ 0 then
        [worker_act.dnode_hook]
      else []) ++
      [worker_act.unlock_mtx])

/-!
Helper lemmas.
-/

theorem swap16_lt (x : Nat) : swap16 x < 65536 := by
  unfold swap16
  have h1 : x % 256 < 256 := Nat.mod_lt _ (by omega)
  have h2 : x % 65536 / 256 < 256 := by
    have : x % 65536 < 65536 := Nat.mod_lt _ (by omega)
    omega
  omega

theorem swap16_eq_of_lt (x : Nat) (h : x < 65536) :
    swap16 x = x % 256 * 256 + x / 256 := by
  unfold swap16; rw [Nat.mod_eq_of_lt h]

theorem swap16_swap16 (x : Nat) (h : x < 65536) : swap16 (swap16 x) = x := by
  have hb : x / 256 < 256 := by omega
  rw [swap16_eq_of_lt x h, swap16_eq_of_lt _ (by omega)]
  have h3 : (x % 256 * 256 + x / 256) % 256 = x / 256 := by
    rw [mul_comm, Nat.mul_add_mod, Nat.mod_eq_of_lt hb]
  have hd : (x % 256 * 256 + x / 256) / 256 = x % 256 := by
    rw [mul_comm, Nat.mul_add_div (by omega)]
    simp [Nat.div_eq_of_lt hb]
  rw [h3, hd]
  omega

theorem swap32_eq (x : Nat) :
    swap32 x = 65536 * swap16 (x % 65536) + swap16 (x / 65536 % 65536) := by
  unfold swap32 swap16
  have emm : ∀ a : Nat, a % 65536 % 65536 = a % 65536 := fun a =>
    Nat.mod_mod_of_dvd a dvd_rfl
  have e1 : x % 65536 % 256 = x % 256 := Nat.mod_mod_of_dvd x (by norm_num)
  have e2 : x % 65536 % 65536 / 256 = x / 256 % 256 := by
    rw [emm]
    have l := Nat.mod_mul_right_div_self x 256 256
    norm_num at l
    exact l
  have e3 : x / 65536 % 65536 % 256 = x / 65536 % 256 :=
    Nat.mod_mod_of_dvd _ (by norm_num)
  have e4 : x / 65536 % 65536 % 65536 / 256 = x % 4294967296 / 16777216 := by
    rw [emm]
    have l1 := Nat.mod_mul_right_div_self (x / 65536) 256 256
    norm_num at l1
    have l2 : x / 65536 / 256 = x / 16777216 := by
      rw [Nat.div_div_eq_div_mul]
    have l3 := Nat.mod_mul_right_div_self x 16777216 256
    norm_num at l3
    rw [l1, l2, l3]
  rw [e1, e2, e3, e4]
  ring

theorem swap32_swap32 (x : Nat) (h : x < 4294967296) :
    swap32 (swap32 x) = x := by
  have hH : x / 65536 < 65536 := by omega
  have hL : x % 65536 < 65536 := Nat.mod_lt _ (by omega)
  rw [swap32_eq x, Nat.mod_eq_of_lt hH, swap32_eq]
  have m1 : (65536 * swap16 (x % 65536) + swap16 (x / 65536)) % 65536 =
      swap16 (x / 65536) := by
    rw [Nat.mul_add_mod, Nat.mod_eq_of_lt (swap16_lt _)]
  have m2 : (65536 * swap16 (x % 65536) + swap16 (x / 65536)) / 65536 % 65536 =
      swap16 (x % 65536) := by
    rw [Nat.mul_add_div (by omega), Nat.div_eq_of_lt (swap16_lt _)]
    rw [Nat.add_zero, Nat.mod_eq_of_lt (swap16_lt _)]
  rw [m1, m2, swap16_swap16 _ hH, swap16_swap16 _ hL]
  omega

theorem stamp_loop_length (rid : Nat) (l : List control_txn) :
    (stamp_loop rid l).1.length = l.length := by
  induction l generalizing rid with
  | nil => simp [stamp_loop]
  | cons t ts ih => simp [stamp_loop, ih]

theorem stamp_loop_snd (rid : Nat) (l : List control_txn) (h : l ≠ []) :
    (stamp_loop rid l).2 = (rid + l.length) % 65536 := by
  induction l generalizing rid with
  | nil => exact absurd rfl h
  | cons t ts ih =>
    by_cases hts : ts = []
    · subst hts; simp [stamp_loop]
    · simp only [stamp_loop, List.length_cons]
      rw [ih _ hts]
      omega

theorem stamp_loop_get (rid i : Nat) (l : List control_txn) :
    (stamp_loop rid l).1[i]? =
      (l[i]?).map (fun t =>
        { t with req := { t.req with r_id := (rid + i) % 65536 } }) := by
  induction l generalizing rid i with
  | nil => simp [stamp_loop]
  | cons t ts ih =>
    cases i with
    | zero => simp [stamp_loop]
    | succ n =>
      simp only [stamp_loop, List.getElem?_cons_succ]
      rw [ih]
      have hm : ((rid + 1) % 65536 + n) % 65536 = (rid + (n + 1)) % 65536 := by
        omega
      rw [hm]

theorem control_set_transactions_body_install (cs : control_session)
    (l : List control_txn) (n : Nat)
    (he : cs.ctl_txns = none ∧ cs.ctl_cur_txn = -1 ∧ cs.ctl_n_txns = 0)
    (hn : n ≠ 0) :
    control_set_transactions_body cs (some l) n =
      some { cs with ctl_txns := some (stamp_loop cs.ctl_cur_rid l).1,
                     ctl_n_txns := n, ctl_cur_txn := 0,
                     ctl_cur_rid := (stamp_loop cs.ctl_cur_rid l).2 } := by
  unfold control_set_transactions_body
  rw [if_pos (Or.inl he), if_neg hn]
  rfl

theorem control_set_transactions_body_clear (cs : control_session) :
    control_set_transactions_body cs none 0 =
      some { cs with ctl_txns := none, ctl_n_txns := 0,
                     ctl_cur_txn := -1 } := by
  unfold control_set_transactions_body
  rw [if_pos (Or.inr ⟨rfl, rfl⟩), if_pos rfl]

theorem control_set_transactions_body_isSome (cs : control_session)
    (txns : Option (List control_txn)) (n : Nat) :
    (control_set_transactions_body cs txns n).isSome ↔
      ((cs.ctl_txns = none ∧ cs.ctl_cur_txn = -1 ∧ cs.ctl_n_txns = 0) ∨
       (txns = none ∧ n = 0)) := by
  unfold control_set_transactions_body
  split_ifs with hcond h0 <;> simp [hcond]

theorem control_set_transactions_isSome (cs : control_session)
    (txns : Option (List control_txn)) (n : Nat) (hl : Bool) :
    (control_set_transactions cs txns n hl).isSome ↔
      ((cs.ctl_txns = none ∧ cs.ctl_cur_txn = -1 ∧ cs.ctl_n_txns = 0) ∨
       (txns = none ∧ n = 0)) := by
  cases hl with
  | true => exact control_set_transactions_body_isSome cs txns n
  | false =>
    have h := control_set_transactions_body_isSome (control_must_lock cs)
      txns n
    show ((control_set_transactions_body (control_must_lock cs) txns
      n).map control_must_unlock).isSome = true ↔ _
    cases hb : control_set_transactions_body (control_must_lock cs) txns n
      with
    | none =>
      rw [hb] at h
      simpa using h
    | some x =>
      rw [hb] at h
      simpa using h

theorem control_set_transactions_install (cs : control_session)
    (l : List control_txn) (n : Nat) (hl : Bool)
    (he : cs.ctl_txns = none ∧ cs.ctl_cur_txn = -1 ∧ cs.ctl_n_txns = 0)
    (hn : n ≠ 0) :
    control_set_transactions cs (some l) n hl =
      some { cs with ctl_txns := some (stamp_loop cs.ctl_cur_rid l).1,
                     ctl_n_txns := n, ctl_cur_txn := 0,
                     ctl_cur_rid := (stamp_loop cs.ctl_cur_rid l).2,
                     mtx_locked := if hl then cs.mtx_locked else false } := by
  cases hl with
  | true =>
    show control_set_transactions_body cs (some l) n = _
    rw [control_set_transactions_body_install cs l n he hn]
    rfl
  | false =>
    show (control_set_transactions_body (control_must_lock cs) (some l)
      n).map control_must_unlock = _
    rw [control_set_transactions_body_install (control_must_lock cs) l n
      he hn]
    rfl

theorem control_set_transactions_clear_eq (cs : control_session)
    (hl : Bool) :
    control_set_transactions cs none 0 hl =
      some { cs with ctl_txns := none, ctl_n_txns := 0, ctl_cur_txn := -1,
                     mtx_locked := if hl then cs.mtx_locked else false } := by
  cases hl with
  | true =>
    show control_set_transactions_body cs none 0 = _
    rw [control_set_transactions_body_clear]
    rfl
  | false =>
    show (control_set_transactions_body (control_must_lock cs) none
      0).map control_must_unlock = _
    rw [control_set_transactions_body_clear]
    rfl

theorem control_clear_transactions_eq (cs : control_session) :
    control_clear_transactions cs =
      { cs with ctl_txns := none, ctl_n_txns := 0, ctl_cur_txn := -1 } := by
  show (control_set_transactions_body cs none 0).getD cs = _
  rw [control_set_transactions_body_clear]
  rfl

theorem raw_packet_recv_ptype_out (ret : Int) (pkt : raw_packet)
    (h1 : pkt._p_magic = PACKET_HEADER_MAGIC) (h2 : ret ≠ -1) :
    (raw_packet_recv ret pkt 0).2.2.1 = pkt.p_type := by
  by_cases hb : pkt.p_type = RAW_PKT_TYPE_BSAMP
  · simp [raw_packet_recv, h1, h2, hb]
  by_cases hq : pkt.p_type = RAW_PKT_TYPE_REQ
  · simp [raw_packet_recv, h1, h2, hb, hq, RAW_PKT_TYPE_BSAMP, RAW_PKT_TYPE_REQ]
  by_cases hs : pkt.p_type = RAW_PKT_TYPE_RES
  · simp [raw_packet_recv, h1, h2, hb, hq, hs, RAW_PKT_TYPE_BSAMP,
      RAW_PKT_TYPE_REQ, RAW_PKT_TYPE_RES]
  by_cases he : pkt.p_type = RAW_PKT_TYPE_ERR
  · simp [raw_packet_recv, h1, h2, hb, hq, hs, he, RAW_PKT_TYPE_BSAMP,
      RAW_PKT_TYPE_REQ, RAW_PKT_TYPE_RES, RAW_PKT_TYPE_ERR]
  · simp [raw_packet_recv, h1, h2, hb, hq, hs, he]

/-!
Claim theorems.
-/

/-- C8, counterexample: `raw_packet_init` does not zero the payload.  On
a packet whose Request-view `r_val` is 7, after
`raw_packet_init(packet, type, flags)` the payload byte content is still
7, not 0 as the claim's "zeroes all remaining bytes" requires. -/
theorem raw_packet_init_no_zeroing :
    (raw_packet_init ⟨0, 0, 0, 0, ⟨0, 0, 0, 7⟩, ⟨0, 0, 0, fun _ => 0⟩⟩
        RAW_PKT_TYPE_REQ 0).p_req.r_val = 7 ∧ (7 : Nat) ≠ 0 :=
  ⟨rfl, by decide⟩

/-- C8 (amended): `raw_packet_init(packet, type, flags)` writes
`magic = 0x5A`, `proto_version = 0x00`, and the given type and flags into
the header, and leaves every remaining byte of the packet (the entire
payload) unchanged. -/
theorem raw_packet_init_spec (packet : raw_packet) (type flags : Nat) :
    (raw_packet_init packet type flags)._p_magic = 0x5A ∧
    (raw_packet_init packet type flags)._p_proto_vers = 0x00 ∧
    (raw_packet_init packet type flags).p_type = type ∧
    (raw_packet_init packet type flags).p_flags = flags ∧
    (raw_packet_init packet type flags).p_req = packet.p_req ∧
    (raw_packet_init packet type flags).p_bsamp = packet.p_bsamp :=
  ⟨rfl, rfl, rfl, rfl, rfl, rfl⟩

/-- C7, counterexample: the proto-version byte is not validated on
receive.  A packet with correct magic `0x5A`, `proto_version = 1 ≠ 0x00`
and type Error is accepted by `raw_packet_recv` (no errno is set and the
byte count is returned), not rejected with `ProtocolError` as the claim
requires. -/
theorem raw_packet_recv_version_not_checked :
    (raw_packet_recv 8 ⟨0x5A, 1, RAW_PKT_TYPE_ERR, 0, ⟨0, 0, 0, 0⟩,
        ⟨0, 0, 0, fun _ => 0⟩⟩ 0).2.1 = none ∧
    (raw_packet_recv 8 ⟨0x5A, 1, RAW_PKT_TYPE_ERR, 0, ⟨0, 0, 0, 0⟩,
        ⟨0, 0, 0, fun _ => 0⟩⟩ 0).1 = 8 ∧
    (1 : Nat) ≠ PACKET_HEADER_PROTO_VERS := by
  refine ⟨rfl, rfl, by decide⟩

set_option maxHeartbeats 2000000 in
/-- C7 (amended): on receive only the magic byte is validated: a packet
whose magic differs from `0x5A` is rejected with `ProtocolError`
(`errno = EPROTO`), while the `proto_version` byte is never inspected —
the return value and errno of `raw_packet_recv` are unchanged under any
value of the version byte. -/
theorem raw_packet_recv_magic_only (ret : Int) (pkt : raw_packet)
    (ptype : Nat) :
    (pkt._p_magic ≠ PACKET_HEADER_MAGIC →
      raw_packet_recv ret pkt ptype =
        (-1, some recv_errno.EPROTO, ptype, pkt)) ∧
    (∀ v1 v2 : Nat,
      (raw_packet_recv ret { pkt with _p_proto_vers := v1 } ptype).1 =
        (raw_packet_recv ret { pkt with _p_proto_vers := v2 } ptype).1 ∧
      (raw_packet_recv ret { pkt with _p_proto_vers := v1 } ptype).2.1 =
        (raw_packet_recv ret { pkt with _p_proto_vers := v2 } ptype).2.1) := by
  constructor
  · intro h
    simp [raw_packet_recv, h]
  · intro v1 v2
    unfold raw_packet_recv
    dsimp only
    constructor <;> (split_ifs <;> rfl)

/-- C7 (amended), witness: a packet whose magic byte is `0x13` is
rejected with `EPROTO`. -/
theorem raw_packet_recv_magic_only_witness :
    raw_packet_recv 8 ⟨0x13, 0, RAW_PKT_TYPE_ERR, 0, ⟨0, 0, 0, 0⟩,
        ⟨0, 0, 0, fun _ => 0⟩⟩ 0 =
      (-1, some recv_errno.EPROTO, 0,
        ⟨0x13, 0, RAW_PKT_TYPE_ERR, 0, ⟨0, 0, 0, 0⟩,
          ⟨0, 0, 0, fun _ => 0⟩⟩) :=
  (raw_packet_recv_magic_only 8
    ⟨0x13, 0, RAW_PKT_TYPE_ERR, 0, ⟨0, 0, 0, 0⟩, ⟨0, 0, 0, fun _ => 0⟩⟩
    0).1 (by decide)

/-- C9: the magic check precedes the inspection of the underlying
`recv(2)` return value: whenever the buffer's magic byte differs from
`0x5A`, `raw_packet_recv` returns `-1` with `errno = EPROTO` — in
particular also when the socket read itself returned `-1` — so at the
public interface `ProtocolError` takes precedence over the underlying
I/O error. -/
theorem raw_packet_recv_magic_precedence (ret : Int) (pkt : raw_packet)
    (ptype : Nat) (h : pkt._p_magic ≠ PACKET_HEADER_MAGIC) :
    raw_packet_recv ret pkt ptype =
      (-1, some recv_errno.EPROTO, ptype, pkt) ∧
    raw_packet_recv (-1) pkt ptype =
      (-1, some recv_errno.EPROTO, ptype, pkt) := by
  constructor <;> simp [raw_packet_recv, h]

/-- C9, witness: a failing socket read (`ret = -1`) on a buffer with
corrupted magic still surfaces `EPROTO`. -/
theorem raw_packet_recv_magic_precedence_witness :
    raw_packet_recv (-1) ⟨0x41, 0, RAW_PKT_TYPE_ERR, 0, ⟨0, 0, 0, 0⟩,
        ⟨0, 0, 0, fun _ => 0⟩⟩ 0 =
      (-1, some recv_errno.EPROTO, 0,
        ⟨0x41, 0, RAW_PKT_TYPE_ERR, 0, ⟨0, 0, 0, 0⟩,
          ⟨0, 0, 0, fun _ => 0⟩⟩) :=
  (raw_packet_recv_magic_precedence (-1)
    ⟨0x41, 0, RAW_PKT_TYPE_ERR, 0, ⟨0, 0, 0, 0⟩, ⟨0, 0, 0, fun _ => 0⟩⟩ 0
    (by decide)).2

set_option maxHeartbeats 2000000 in
/-- C1: the `raw_packet_recv` contract: a buffer whose magic byte is not
`0x5A` fails with `EPROTO` (ProtocolError) and the payload is returned
unconverted; a zero `*expected_type_in_out` is set to the received type;
a nonzero one that differs from the received type fails with `EIO`; a
received type outside BoardSample/Request/Response/Error fails with
`EPROTO`; otherwise the payload is converted from network to host byte
order and the received byte count is returned. -/
theorem raw_packet_recv_contract (ret : Int) (pkt : raw_packet)
    (ptype : Nat) :
    (pkt._p_magic ≠ PACKET_HEADER_MAGIC →
      raw_packet_recv ret pkt ptype =
        (-1, some recv_errno.EPROTO, ptype, pkt)) ∧
    (pkt._p_magic = PACKET_HEADER_MAGIC → ret ≠ -1 → ptype = 0 →
      (raw_packet_recv ret pkt ptype).2.2.1 = pkt.p_type) ∧
    (pkt._p_magic = PACKET_HEADER_MAGIC → ret ≠ -1 → ptype ≠ 0 →
      ptype ≠ pkt.p_type →
      raw_packet_recv ret pkt ptype =
        (-1, some recv_errno.eio, ptype, pkt)) ∧
    (pkt._p_magic = PACKET_HEADER_MAGIC → ret ≠ -1 →
      (ptype = 0 ∨ ptype = pkt.p_type) →
      pkt.p_type ≠ RAW_PKT_TYPE_BSAMP → pkt.p_type ≠ RAW_PKT_TYPE_REQ →
      pkt.p_type ≠ RAW_PKT_TYPE_RES → pkt.p_type ≠ RAW_PKT_TYPE_ERR →
      raw_packet_recv ret pkt ptype =
        (-1, some recv_errno.EPROTO, pkt.p_type, pkt)) ∧
    (pkt._p_magic = PACKET_HEADER_MAGIC → ret ≠ -1 →
      (ptype = 0 ∨ ptype = pkt.p_type) →
      (pkt.p_type = RAW_PKT_TYPE_BSAMP →
        raw_packet_recv ret pkt ptype =
          (ret, none, pkt.p_type,
            { pkt with p_bsamp := raw_msg_bsamp_ntoh pkt.p_bsamp })) ∧
      (pkt.p_type = RAW_PKT_TYPE_REQ →
        raw_packet_recv ret pkt ptype =
          (ret, none, pkt.p_type,
            { pkt with p_req := raw_msg_req_ntoh pkt.p_req })) ∧
      (pkt.p_type = RAW_PKT_TYPE_RES →
        raw_packet_recv ret pkt ptype =
          (ret, none, pkt.p_type,
            { pkt with p_req := raw_msg_res_ntoh pkt.p_req })) ∧
      (pkt.p_type = RAW_PKT_TYPE_ERR →
        raw_packet_recv ret pkt ptype = (ret, none, pkt.p_type, pkt))) := by
  refine ⟨?_, ?_, ?_, ?_, ?_⟩
  · intro h
    simp [raw_packet_recv, h]
  · intro h1 h2 h3
    subst h3
    exact raw_packet_recv_ptype_out ret pkt h1 h2
  · intro h1 h2 h3 h4
    simp [raw_packet_recv, h1, h2, h3, h4]
  · intro h1 h2 h3 hb hq hs he
    rcases h3 with h3 | h3 <;> subst h3 <;>
      simp [raw_packet_recv, h1, h2, hb, hq, hs, he]
  · intro h1 h2 h3
    refine ⟨?_, ?_, ?_, ?_⟩ <;> intro ht <;>
      rcases h3 with h3 | h3 <;> subst h3 <;>
        simp [raw_packet_recv, h1, h2, ht]
    all_goals simp [ht, RAW_PKT_TYPE_BSAMP, RAW_PKT_TYPE_REQ,
      RAW_PKT_TYPE_RES, RAW_PKT_TYPE_ERR]

/-- C1, witness: the five branches of the receive contract at concrete
inputs: corrupted magic, type learned from the packet, expected-type
mismatch, unknown received type, and a successful Error-type receive. -/
theorem raw_packet_recv_contract_witness :
    raw_packet_recv 8 ⟨0, 0, RAW_PKT_TYPE_ERR, 0, ⟨0, 0, 0, 0⟩,
        ⟨0, 0, 0, fun _ => 0⟩⟩ 0 =
      (-1, some recv_errno.EPROTO, 0,
        ⟨0, 0, RAW_PKT_TYPE_ERR, 0, ⟨0, 0, 0, 0⟩, ⟨0, 0, 0, fun _ => 0⟩⟩) ∧
    (raw_packet_recv 8 ⟨0x5A, 0, RAW_PKT_TYPE_ERR, 0, ⟨0, 0, 0, 0⟩,
        ⟨0, 0, 0, fun _ => 0⟩⟩ 0).2.2.1 = RAW_PKT_TYPE_ERR ∧
    raw_packet_recv 8 ⟨0x5A, 0, RAW_PKT_TYPE_ERR, 0, ⟨0, 0, 0, 0⟩,
        ⟨0, 0, 0, fun _ => 0⟩⟩ RAW_PKT_TYPE_REQ =
      (-1, some recv_errno.eio, RAW_PKT_TYPE_REQ,
        ⟨0x5A, 0, RAW_PKT_TYPE_ERR, 0, ⟨0, 0, 0, 0⟩,
          ⟨0, 0, 0, fun _ => 0⟩⟩) ∧
    raw_packet_recv 8 ⟨0x5A, 0, 9, 0, ⟨0, 0, 0, 0⟩,
        ⟨0, 0, 0, fun _ => 0⟩⟩ 0 =
      (-1, some recv_errno.EPROTO, 9,
        ⟨0x5A, 0, 9, 0, ⟨0, 0, 0, 0⟩, ⟨0, 0, 0, fun _ => 0⟩⟩) ∧
    raw_packet_recv 8 ⟨0x5A, 0, RAW_PKT_TYPE_ERR, 0, ⟨0, 0, 0, 0⟩,
        ⟨0, 0, 0, fun _ => 0⟩⟩ 0 =
      (8, none, RAW_PKT_TYPE_ERR,
        ⟨0x5A, 0, RAW_PKT_TYPE_ERR, 0, ⟨0, 0, 0, 0⟩,
          ⟨0, 0, 0, fun _ => 0⟩⟩) :=
  ⟨(raw_packet_recv_contract 8 _ 0).1 (by decide),
   (raw_packet_recv_contract 8 _ 0).2.1 (by decide) (by decide) rfl,
   (raw_packet_recv_contract 8 _ RAW_PKT_TYPE_REQ).2.2.1 (by decide)
     (by decide) (by decide) (by decide),
   (raw_packet_recv_contract 8 _ 0).2.2.2.1 (by decide) (by decide)
     (Or.inl rfl) (by decide) (by decide) (by decide) (by decide),
   ((raw_packet_recv_contract 8 _ 0).2.2.2.2 (by decide) (by decide)
     (Or.inl rfl)).2.2.2 rfl⟩

/-- C2: in the board-sample codec, the per-sample loop of
`raw_msg_bsamp_hton` runs before the dimensions are converted to network
order, and `raw_msg_bsamp_ntoh` converts the dimensions to host order
before its per-sample loop runs — so the count `nchips × nlines` that
bounds each per-element loop is always read in host byte order: on send
it is the host-order product of the input message, on receive it is the
product of the de-converted dimensions, and as a consequence a
host-order message round-trips exactly through hton then ntoh. -/
theorem raw_msg_bsamp_order (msg : raw_msg_bsamp)
    (hi : msg.bs_idx < 4294967296)
    (hc : msg.bs_nchips < 65536) (hl : msg.bs_nlines < 65536)
    (hs : ∀ i, msg.bs_samples i < 65536) :
    (∀ i, (raw_msg_bsamp_hton msg).bs_samples i =
      (if i < msg.bs_nchips * msg.bs_nlines then htons (msg.bs_samples i)
       else msg.bs_samples i)) ∧
    (∀ i, (raw_msg_bsamp_ntoh (raw_msg_bsamp_hton msg)).bs_samples i =
      (if i < msg.bs_nchips * msg.bs_nlines then
        ntohs ((raw_msg_bsamp_hton msg).bs_samples i)
       else (raw_msg_bsamp_hton msg).bs_samples i)) ∧
    raw_msg_bsamp_ntoh (raw_msg_bsamp_hton msg) = msg := by
  obtain ⟨idx, nc, nl, s⟩ := msg
  simp only at hi hc hl hs
  have rc : ntohs (htons nc) = nc := swap16_swap16 nc hc
  have rl : ntohs (htons nl) = nl := swap16_swap16 nl hl
  refine ⟨fun i => rfl, ?_, ?_⟩
  · intro i
    simp only [raw_msg_bsamp_ntoh, raw_msg_bsamp_hton, raw_bsamp_nsamps,
      ntohs, htons] at rc rl ⊢
    rw [rc, rl]
  · simp only [raw_msg_bsamp_ntoh, raw_msg_bsamp_hton, raw_bsamp_nsamps,
      ntohs, htons, ntohl, htonl] at rc rl ⊢
    rw [rc, rl]
    simp only [raw_msg_bsamp.mk.injEq]
    refine ⟨swap32_swap32 idx hi, trivial, trivial, funext fun i => ?_⟩
    by_cases h : i < nc * nl <;> simp [h, swap16_swap16 (s i) (hs i)]

/-- C2, witness: a concrete 2-by-3 board sample round-trips through the
send and receive byte-order conversions. -/
theorem raw_msg_bsamp_order_witness :
    raw_msg_bsamp_ntoh (raw_msg_bsamp_hton ⟨42, 2, 3, fun _ => 7⟩) =
      ⟨42, 2, 3, fun _ => 7⟩ := by
  have hs : ∀ i, (⟨42, 2, 3, fun _ => 7⟩ : raw_msg_bsamp).bs_samples i < 65536 := by
    intro i
    show (7 : Nat) < 65536
    decide
  exact (raw_msg_bsamp_order ⟨42, 2, 3, fun _ => 7⟩ (by decide) (by decide)
    (by decide) hs).2.2

/-- C3, counterexample: request-ID stamping wraps at the `u16` width.
From an empty transaction list with `cur_rid = k = 65535`, installing one
transaction leaves `cur_rid = 0`, not `k + n = 65536` as the claim
requires over the naturals. -/
theorem control_set_transactions_wrap_cex :
    (control_set_transactions ⟨false, false, none, 0, -1, 65535, 0, false⟩
        (some [⟨⟨0, 0, 0, 0⟩⟩]) 1 true).map (fun cs => cs.ctl_cur_rid) =
      some 0 ∧ (0 : Nat) ≠ 65535 + 1 := by
  constructor
  · rfl
  · decide

/-- C3 (amended): for every session whose transaction list is empty and
whose `cur_rid` equals `k`, `control_set_transactions(cs, txns, n, have_lock)`
with `n > 0` stamps `txns[i]`'s request `r_id` with `(k + i) mod 2^16` for
every `i < n`, leaves `cur_rid` equal to `(k + n) mod 2^16` (both fields
are `u16` and wrap), and sets `cur_txn` to 0; calling it with
`txns = null` and `n = 0` sets `cur_txn` to -1. -/
theorem control_set_transactions_stamps (cs : control_session)
    (l : List control_txn) (n : Nat) (hl : Bool)
    (he : cs.ctl_txns = none ∧ cs.ctl_cur_txn = -1 ∧ cs.ctl_n_txns = 0)
    (hn : 0 < n) (hlen : l.length = n) :
    (∃ cs1, control_set_transactions cs (some l) n hl = some cs1 ∧
      cs1.ctl_cur_txn = 0 ∧ cs1.ctl_n_txns = n ∧
      cs1.ctl_cur_rid = (cs.ctl_cur_rid + n) % 65536 ∧
      ∃ l1, cs1.ctl_txns = some l1 ∧ l1.length = n ∧
        ∀ i, l1[i]? = (l[i]?).map (fun t : control_txn =>
          { t with req :=
              { t.req with r_id := (cs.ctl_cur_rid + i) % 65536 } })) ∧
    (∃ cs2, control_set_transactions cs none 0 hl = some cs2 ∧
      cs2.ctl_txns = none ∧ cs2.ctl_n_txns = 0 ∧ cs2.ctl_cur_txn = -1) := by
  have hnil : l ≠ [] := by
    intro h
    rw [h] at hlen
    simp at hlen
    omega
  constructor
  · rw [control_set_transactions_install cs l n hl he (by omega)]
    refine ⟨_, rfl, rfl, rfl, ?_, _, rfl, ?_, ?_⟩
    · show (stamp_loop cs.ctl_cur_rid l).2 = _
      rw [stamp_loop_snd _ _ hnil, hlen]
    · rw [stamp_loop_length, hlen]
    · intro i
      exact stamp_loop_get cs.ctl_cur_rid i l
  · rw [control_set_transactions_clear_eq cs hl]
    exact ⟨_, rfl, rfl, rfl, rfl⟩

/-- C3, witness: from `cur_rid = 100`, installing three transactions
stamps request IDs 100, 101, 102, advances `cur_rid` to 103, and sets the
cursor to 0; the final `cur_rid` simplifies since `103 < 65536`. -/
theorem control_set_transactions_stamps_witness :
    ∃ cs1, control_set_transactions
        ⟨false, false, none, 0, -1, 100, 0, false⟩
        (some [⟨⟨9, 5, 6, 7⟩⟩, ⟨⟨9, 0, 0, 0⟩⟩, ⟨⟨9, 0, 0, 0⟩⟩]) 3 false =
        some cs1 ∧
      cs1.ctl_cur_txn = 0 ∧ cs1.ctl_cur_rid = 103 ∧
      ∃ l1, cs1.ctl_txns = some l1 ∧
        l1[0]? = some ⟨⟨100, 5, 6, 7⟩⟩ ∧ l1[1]? = some ⟨⟨101, 0, 0, 0⟩⟩ := by
  obtain ⟨⟨cs1, heq, hcur, -, hrid, l1, hl1, -, hget⟩, -⟩ :=
    control_set_transactions_stamps
      ⟨false, false, none, 0, -1, 100, 0, false⟩
      [⟨⟨9, 5, 6, 7⟩⟩, ⟨⟨9, 0, 0, 0⟩⟩, ⟨⟨9, 0, 0, 0⟩⟩] 3 false
      ⟨rfl, rfl, rfl⟩ (by decide) (by decide)
  refine ⟨cs1, heq, hcur, ?_, l1, hl1, ?_, ?_⟩
  · rw [hrid]
    rfl
  · rw [hget 0]; rfl
  · rw [hget 1]; rfl

/-- C4: if a client stream endpoint emits EOF or ERROR while the
transaction list is non-empty, then after the close handler returns the
transaction fields satisfy `ctl_txns = null`, `ctl_n_txns = 0` and
`ctl_cur_txn = -1`; moreover the clearing happens in the mutex-held
portion of `control_client_close`: the mutex is acquired first, and the
state reached just before `control_must_unlock` already has the fields
cleared with the mutex still held. -/
theorem control_client_close_clears (cs : control_session) (events : Nat)
    (hcb : cs.cbev = true) (htx : cs.ctl_txns ≠ none)
    (hev : events &&& BEV_EVENT_EOF ≠ 0 ∨ events &&& BEV_EVENT_ERROR ≠ 0) :
    (∃ cs1, control_client_event events cs = some cs1 ∧
      cs1.ctl_txns = none ∧ cs1.ctl_n_txns = 0 ∧ cs1.ctl_cur_txn = -1) ∧
    (control_must_lock cs).mtx_locked = true ∧
    (control_client_close_locked (control_must_lock cs)).mtx_locked = true ∧
    (control_client_close_locked (control_must_lock cs)).ctl_txns = none ∧
    (control_client_close_locked (control_must_lock cs)).ctl_n_txns = 0 ∧
    (control_client_close_locked (control_must_lock cs)).ctl_cur_txn = -1 := by
  have hlocked : control_client_close_locked (control_must_lock cs) =
      { cs with cbev := false, ctl_txns := none, ctl_n_txns := 0,
                ctl_cur_txn := -1, mtx_locked := true } := by
    show (if ({ control_must_lock cs with cbev := false } :
            control_session).ctl_txns ≠ none then
          control_clear_transactions
            { control_must_lock cs with cbev := false }
         else { control_must_lock cs with cbev := false }) = _
    rw [if_pos (show ({ control_must_lock cs with cbev := false } :
          control_session).ctl_txns ≠ none from htx),
        control_clear_transactions_eq]
    rfl
  refine ⟨?_, rfl, ?_, ?_, ?_, ?_⟩
  · simp only [control_client_event, control_bevt_handler]
    rw [if_pos hev]
    have hclose : control_client_close cs = some (control_must_unlock
        (control_client_close_locked (control_must_lock cs))) := by
      show (if (control_must_lock cs).cbev then
          some (control_must_unlock
            (control_client_close_locked (control_must_lock cs)))
        else none) = _
      rw [if_pos (show (control_must_lock cs).cbev = true from hcb)]
    rw [hclose, hlocked]
    exact ⟨_, rfl, rfl, rfl, rfl⟩
  · rw [hlocked]
  · rw [hlocked]
  · rw [hlocked]
  · rw [hlocked]

/-- C4, witness: a client EOF event on a session holding one pending
transaction clears the transaction fields, and the clearing happens under
the mutex. -/
theorem control_client_close_clears_witness :
    (∃ cs1, control_client_event 0x10
        ⟨true, true, some [⟨⟨1, 2, 3, 4⟩⟩], 1, 0, 5, 0, false⟩ = some cs1 ∧
      cs1.ctl_txns = none ∧ cs1.ctl_n_txns = 0 ∧ cs1.ctl_cur_txn = -1) ∧
    (control_client_close_locked (control_must_lock
        ⟨true, true, some [⟨⟨1, 2, 3, 4⟩⟩], 1, 0, 5, 0, false⟩)).mtx_locked
      = true :=
  ⟨(control_client_close_clears
      ⟨true, true, some [⟨⟨1, 2, 3, 4⟩⟩], 1, 0, 5, 0, false⟩ 0x10
      (by decide) (by decide) (Or.inl (by decide))).1,
   (control_client_close_clears
      ⟨true, true, some [⟨⟨1, 2, 3, 4⟩⟩], 1, 0, 5, 0, false⟩ 0x10
      (by decide) (by decide) (Or.inl (by decide))).2.2.1⟩

/-- C5: the assertion in `control_set_transactions` guards its
precondition: any call with `n > 0` while `cur_txn ≠ -1` makes the
assertion fire; installing a non-empty list succeeds exactly when the
session's transaction fields are empty
(`ctl_txns = null ∧ ctl_cur_txn = -1 ∧ ctl_n_txns = 0`); and under the
stated precondition (empty list, or clearing with `null, 0`) the
assertion never fires. -/
theorem control_set_transactions_assert (cs : control_session)
    (txns : Option (List control_txn)) (l : List control_txn)
    (n : Nat) (hl : Bool) :
    (0 < n → cs.ctl_cur_txn ≠ -1 →
      control_set_transactions cs txns n hl = none) ∧
    (0 < n →
      ((control_set_transactions cs (some l) n hl).isSome ↔
        (cs.ctl_txns = none ∧ cs.ctl_cur_txn = -1 ∧ cs.ctl_n_txns = 0))) ∧
    ((cs.ctl_txns = none ∧ cs.ctl_cur_txn = -1 ∧ cs.ctl_n_txns = 0) ∨
        (txns = none ∧ n = 0) →
      (control_set_transactions cs txns n hl).isSome) := by
  refine ⟨?_, ?_, ?_⟩
  · intro hn hct
    apply Option.not_isSome_iff_eq_none.mp
    rw [control_set_transactions_isSome]
    rintro (⟨-, hc, -⟩ | ⟨-, h0⟩)
    · exact hct hc
    · omega
  · intro hn
    rw [control_set_transactions_isSome]
    constructor
    · rintro (h | ⟨h, -⟩)
      · exact h
      · exact absurd h (by simp)
    · exact Or.inl
  · intro hprec
    rw [control_set_transactions_isSome]
    exact hprec

/-- C5, witness: with `cur_txn = 0 ≠ -1`, installing one transaction
trips the assertion; on an empty session the install is accepted; a
clear on a busy session is accepted. -/
theorem control_set_transactions_assert_witness :
    control_set_transactions ⟨false, false, some [], 1, 0, 5, 0, false⟩
        (some [⟨⟨0, 0, 0, 0⟩⟩]) 1 true = none ∧
    (control_set_transactions ⟨false, false, none, 0, -1, 5, 0, false⟩
        (some [⟨⟨0, 0, 0, 0⟩⟩]) 1 true).isSome ∧
    (control_set_transactions ⟨false, false, some [⟨⟨0, 0, 0, 0⟩⟩], 1, 0, 5,
        0, false⟩ none 0 true).isSome :=
  ⟨(control_set_transactions_assert ⟨false, false, some [], 1, 0, 5, 0, false⟩
      (some [⟨⟨0, 0, 0, 0⟩⟩]) [] 1 true).1 (by decide) (by decide),
   ((control_set_transactions_assert ⟨false, false, none, 0, -1, 5, 0, false⟩
      (some [⟨⟨0, 0, 0, 0⟩⟩]) [⟨⟨0, 0, 0, 0⟩⟩] 1 true).2.1
      (by decide)).mpr ⟨rfl, rfl, rfl⟩,
   (control_set_transactions_assert ⟨false, false, some [⟨⟨0, 0, 0, 0⟩⟩], 1,
      0, 5, 0, false⟩ none [] 0 true).2.2 (Or.inr ⟨rfl, rfl⟩)⟩

/-- C6: one pass of the worker loop, run with the session mutex held: the
inner loop waits on the condition variable exactly while
`wake_why = NONE`; once awoken with `w ≠ NONE`, if the EXIT bit is set
the pass releases the mutex and terminates without invoking either side's
thread hook; otherwise the client-side hook runs iff CLIENT_CMD or
CLIENT_RES is set, then the data-node-side hook runs iff DNODE_TXN is
set — both strictly between the lock and the final unlock — and the
loop repeats. -/
theorem control_worker_iter_spec (w : Nat) :
    (control_worker_guard w = true ↔ w = CONTROL_WHY_NONE) ∧
    (w &&& CONTROL_WHY_EXIT ≠ 0 →
      control_worker_iter w =
        [worker_act.lock_mtx, worker_act.unlock_mtx,
          worker_act.exit_thread] ∧
      worker_act.client_hook ∉ control_worker_iter w ∧
      worker_act.dnode_hook ∉ control_worker_iter w) ∧
    (w &&& CONTROL_WHY_EXIT = 0 →
      ∃ hooks, control_worker_iter w =
          worker_act.lock_mtx :: (hooks ++ [worker_act.unlock_mtx]) ∧
        (worker_act.client_hook ∈ hooks ↔
          w &&& (CONTROL_WHY_CLIENT_CMD ||| CONTROL_WHY_CLIENT_RES) ≠ 0) ∧
        (worker_act.dnode_hook ∈ hooks ↔
          w &&& CONTROL_WHY_DNODE_TXN ≠ 0) ∧
        (w &&& (CONTROL_WHY_CLIENT_CMD ||| CONTROL_WHY_CLIENT_RES) ≠ 0 →
          w &&& CONTROL_WHY_DNODE_TXN ≠ 0 →
          hooks = [worker_act.client_hook, worker_act.dnode_hook])) := by
  refine ⟨?_, ?_, ?_⟩
  · simp [control_worker_guard, CONTROL_WHY_NONE]
  · intro h
    refine ⟨?_, ?_, ?_⟩ <;> simp [control_worker_iter, h]
  · intro h
    simp only [control_worker_iter, if_neg (not_not_intro h)]
    refine ⟨(if w &&& (CONTROL_WHY_CLIENT_CMD ||| CONTROL_WHY_CLIENT_RES) ≠ 0
        then [worker_act.client_hook] else []) ++
      (if w &&& CONTROL_WHY_DNODE_TXN ≠ 0
        then [worker_act.dnode_hook] else []), ?_, ?_, ?_, ?_⟩
    · rw [List.append_assoc]
    · split_ifs <;> simp_all
    · split_ifs <;> simp_all
    · intro hc hd
      rw [if_pos hc, if_pos hd]
      rfl

/-- C6, witness: with only the EXIT bit set the pass unlocks and
terminates without hooks; with CLIENT_CMD, CLIENT_RES and DNODE_TXN all
set (EXIT clear) the pass runs the client hook then the data-node hook
between lock and unlock. -/
theorem control_worker_iter_spec_witness :
    control_worker_iter 1 =
      [worker_act.lock_mtx, worker_act.unlock_mtx,
        worker_act.exit_thread] ∧
    (∃ hooks, control_worker_iter 14 =
        worker_act.lock_mtx :: (hooks ++ [worker_act.unlock_mtx]) ∧
      (worker_act.client_hook ∈ hooks ↔
        (14 : Nat) &&& (CONTROL_WHY_CLIENT_CMD ||| CONTROL_WHY_CLIENT_RES)
          ≠ 0) ∧
      (worker_act.dnode_hook ∈ hooks ↔
        (14 : Nat) &&& CONTROL_WHY_DNODE_TXN ≠ 0) ∧
      ((14 : Nat) &&& (CONTROL_WHY_CLIENT_CMD ||| CONTROL_WHY_CLIENT_RES)
          ≠ 0 →
        (14 : Nat) &&& CONTROL_WHY_DNODE_TXN ≠ 0 →
        hooks = [worker_act.client_hook, worker_act.dnode_hook])) :=
  ⟨((control_worker_iter_spec 1).2.1 (by decide)).1,
   (control_worker_iter_spec 14).2.2 (by decide)⟩

/-- C10: `raw_packet_copy(dst, src)` writes into `dst` only the header
plus the payload bytes of `src`'s type and leaves every other byte of
`dst` unchanged: for type Error exactly the header fields are copied and
the whole payload of `dst` is untouched; for Request/Response only the
request-message-sized prefix (8 bytes) of the payload is copied; for
board samples only the board-sample struct (8 bytes) plus the
`nchips × nlines` sample payload (`2` bytes each, dimensions read from
`src`) is copied. -/
theorem raw_packet_copy_frame (dst src : raw_packet_bytes) :
    (src.p_type = RAW_PKT_TYPE_ERR →
      raw_packet_copy dst src = some
        { dst with _p_magic := src._p_magic,
                   _p_proto_vers := src._p_proto_vers,
                   p_type := src.p_type, p_flags := src.p_flags }) ∧
    (src.p_type = RAW_PKT_TYPE_REQ ∨ src.p_type = RAW_PKT_TYPE_RES →
      ∃ d, raw_packet_copy dst src = some d ∧
        d._p_magic = src._p_magic ∧ d._p_proto_vers = src._p_proto_vers ∧
        d.p_type = src.p_type ∧ d.p_flags = src.p_flags ∧
        (∀ i, i < 8 → d.p i = src.p i) ∧
        (∀ i, 8 ≤ i → d.p i = dst.p i)) ∧
    (src.p_type = RAW_PKT_TYPE_BSAMP →
      ∃ d, raw_packet_copy dst src = some d ∧
        d._p_magic = src._p_magic ∧ d._p_proto_vers = src._p_proto_vers ∧
        d.p_type = src.p_type ∧ d.p_flags = src.p_flags ∧
        (∀ i, i < 8 + le16 src.p 4 * le16 src.p 6 * 2 → d.p i = src.p i) ∧
        (∀ i, 8 + le16 src.p 4 * le16 src.p 6 * 2 ≤ i →
          d.p i = dst.p i)) := by
  refine ⟨?_, ?_, ?_⟩
  · intro h
    simp [raw_packet_copy, h, RAW_PKT_TYPE_ERR, RAW_PKT_TYPE_BSAMP,
      RAW_PKT_TYPE_REQ, RAW_PKT_TYPE_RES]
  · intro h
    have hnb : ¬src.p_type = RAW_PKT_TYPE_BSAMP := by
      rcases h with h | h <;> rw [h] <;> decide
    simp only [raw_packet_copy, if_neg hnb, if_pos h]
    refine ⟨_, rfl, rfl, rfl, rfl, rfl, ?_, ?_⟩
    · intro i hi
      simp [sizeof_raw_msg_req, hi]
    · intro i hi
      simp only [sizeof_raw_msg_req]
      rw [if_neg (by omega)]
  · intro h
    simp only [raw_packet_copy, if_pos h]
    refine ⟨_, rfl, rfl, rfl, rfl, rfl, ?_, ?_⟩
    · intro i hi
      simp only [sizeof_raw_msg_bsamp, raw_packet_sampsize]
      rw [if_pos (by omega)]
    · intro i hi
      simp only [sizeof_raw_msg_bsamp, raw_packet_sampsize]
      rw [if_neg (by omega)]

/-- C10, witness: copying a concrete Error-type packet copies exactly the
header and leaves the destination payload untouched. -/
theorem raw_packet_copy_frame_witness :
    raw_packet_copy ⟨1, 2, 3, 4, fun i => i⟩
        ⟨0x5A, 0, RAW_PKT_TYPE_ERR, 9, fun _ => 0⟩ =
      some ⟨0x5A, 0, RAW_PKT_TYPE_ERR, 9, fun i => i⟩ :=
  (raw_packet_copy_frame ⟨1, 2, 3, 4, fun i => i⟩
    ⟨0x5A, 0, RAW_PKT_TYPE_ERR, 9, fun _ => 0⟩).1 rfl

end Leafysd
